import Mathlib

/-!
Verification of the xiaohongshu URL / QR-scanner tool.

The two Python source files (`xhs404Url.py`, `qr_scanner.py`) are shallowly
embedded below.  External effects (the `adb` subprocess calls, screen capture,
QR decoding, stdin) are modelled as explicit oracle environments; every pure
transformation (`extract_id_from_url`, `convert_to_app_url`,
`validate_xhs_url`) is translated directly from the source.  Python's `re`
module is modelled precisely for the concrete patterns used by the source:
`re.search(r'/explore/([a-f0-9]{24})', url)` is a leftmost scan with exact
24-character capture, and `re.match(p, url, re.IGNORECASE)` for the three
anchored validator patterns, where `.` does not match a newline.  Case folding
is modelled on ASCII (the patterns themselves are pure ASCII).
-/

/-- Character class `[a-f0-9]` of the extraction regex (lowercase hex only:
the source compiles the pattern without `re.IGNORECASE`). -/
def isHexLower (c : Char) : Bool :=
  (decide ('a' ≤ c) && decide (c ≤ 'f')) || (decide ('0' ≤ c) && decide (c ≤ '9'))

/-- The literal segment of the extraction pattern `/explore/([a-f0-9]{24})`. -/
def explorePat : List Char := "/explore/".data

/-- Whether the regex `/explore/([a-f0-9]{24})` matches at the head of `l`:
the literal 9-character segment, immediately followed by (at least) 24
lowercase-hex characters.  The capture group is the first 24 of them. -/
def matchesAt (l : List Char) : Bool :=
  explorePat.isPrefixOf l
    && (((l.drop 9).take 24).length == 24)
    && ((l.drop 9).take 24).all isHexLower

/-- `re.search` for the pattern: try each position left to right, returning
the capture group of the first position at which the pattern matches. -/
def searchAux : List Char → Option (List Char)
  | [] => none
  | c :: cs =>
    if matchesAt (c :: cs) then some (((c :: cs).drop 9).take 24)
    else searchAux cs

/-- `XhsUrlProcessor.extract_id_from_url` (xhs404Url.py, lines 29-50):
`re.search(r'/explore/([a-f0-9]{24})', url)`, returning the captured group,
or `None` when there is no match. -/
def extract_id_from_url (url : String) : Option String :=
  (searchAux url.data).map String.mk

/-- `XhsUrlProcessor.convert_to_app_url` (xhs404Url.py, lines 52-60):
the f-string `f"xhsdiscover://item/{item_id}?source=pcweb_access_limit"`. -/
def convert_to_app_url (item_id : String) : String :=
  "xhsdiscover://item/" ++ item_id ++ "?source=pcweb_access_limit"

/-- Python whitespace for `str.strip()` (ASCII set). -/
def isPySpace (c : Char) : Bool :=
  c == ' ' || c == '\t' || c == '\n' || c == '\r' || c == '\x0b' || c == '\x0c'

/-- `str.strip()` on ASCII whitespace. -/
def pyStrip (s : String) : String :=
  String.mk (((s.data.dropWhile isPySpace).reverse.dropWhile isPySpace).reverse)

/-- Scan `l` for an occurrence of `host`, as `.*host` does inside an already
anchored Python regex: an occurrence counts only if no newline lies strictly
before it (`.` never matches a newline without `re.DOTALL`). -/
def scanHost (host : List Char) : List Char → Bool
  | [] => host.isPrefixOf ([] : List Char)
  | c :: cs =>
    host.isPrefixOf (c :: cs) || (if c = '\n' then false else scanHost host cs)

/-- `re.match(r'^https?://.*' ++ host ++ r'.*', l)` on an already
case-folded character list `l`.  `https?` is the two scheme alternatives; the
trailing `.*` always matches (possibly empty), since `re.match` does not
require the match to span the whole string. -/
def matchWebPattern (l : List Char) (host : List Char) : Bool :=
  if "http://".data.isPrefixOf l then scanHost host (l.drop 7)
  else if "https://".data.isPrefixOf l then scanHost host (l.drop 8)
  else false

/-- `QRScanner.validate_xhs_url` (qr_scanner.py, lines 70-87): the three
patterns `^xhsdiscover://.*`, `^https?://.*xiaohongshu\.com.*`,
`^https?://.*xhslink\.com.*`, each tried with `re.match(..., re.IGNORECASE)`
(modelled by ASCII-lowercasing the input; the patterns are lowercase ASCII). -/
def validate_xhs_url (url : String) : Bool :=
  "xhsdiscover://".data.isPrefixOf (url.data.map Char.toLower)
    || matchWebPattern (url.data.map Char.toLower) "xiaohongshu.com".data
    || matchWebPattern (url.data.map Char.toLower) "xhslink.com".data

/-- Result of one external `adb` invocation, as classified by the `try`
blocks in both source files: clean exit, non-zero exit, `TimeoutExpired`,
`FileNotFoundError` (executable missing), or any other exception. -/
inductive CmdOutcome where
  | ok
  | fail
  | timeout
  | notFound
  | err
deriving DecidableEq

/-- `execute_adb_command` (both files): returns `True` exactly on a clean
exit; `TimeoutExpired`, `FileNotFoundError` and every other exception are
caught and reported as `False`. -/
def execute_adb_command : CmdOutcome → Bool
  | CmdOutcome.ok => true
  | _ => false

/-- `click_coordinate` (both files): same outcome classification as
`execute_adb_command`. -/
def click_coordinate : CmdOutcome → Bool
  | CmdOutcome.ok => true
  | _ => false

/-- Does a Python `in` substring test succeed (`pat in line`)? -/
def containsSeg (pat : List Char) : List Char → Bool
  | [] => pat.isEmpty
  | c :: cs => pat.isPrefixOf (c :: cs) || containsSeg pat cs

/-- Oracle environment for one `QRScanner` run: result of the single
`adb devices` call (exit status and stdout lines), the decoded QR payload
offered at each attempt number (`none` models both "no code found" and an
exception while capturing/decoding), and the outcome of each dispatch/tap. -/
structure ScanEnv where
  adbDevicesOk : Bool
  adbDevicesOut : List String
  scan : Nat → Option String
  dispatch : String → CmdOutcome
  tap : Nat → Nat → CmdOutcome

/-- `QRScanner.check_adb_connection` device-line filter (qr_scanner.py,
lines 195-196): drop the header line, keep non-blank lines containing the
substring `device`. -/
def connectedDevices (env : ScanEnv) : List String :=
  (env.adbDevicesOut.drop 1).filter
    (fun l => (pyStrip l != "") && containsSeg "device".data l.data)

/-- `QRScanner.check_adb_connection` (qr_scanner.py, lines 180-212): true iff
`adb devices` exited cleanly and at least one device line survived the
filter. -/
def check_adb_connection (env : ScanEnv) : Bool :=
  env.adbDevicesOk && !(connectedDevices env).isEmpty

/-- Observable trace of one `QRScanner.run` invocation. -/
structure ScanTrace where
  connChecks : Nat
  attempts : Nat
  dispatched : List String
  taps : List (Nat × Nat)
  success : Bool

/-- The `for attempt in range(1, max_attempts + 1)` loop of `QRScanner.run`
(qr_scanner.py, lines 237-276).  A decoded payload failing validation, or no
payload at all, is a soft failure (continue with the next attempt).  A
validated payload is passed UNMODIFIED to `execute_adb_command`; on clean
dispatch the fixed tap is issued and the run returns `True` whether or not
the tap succeeded; on failed dispatch the run returns `False`. -/
def scanLoop (env : ScanEnv) : Nat → Nat → ScanTrace
  | _, 0 => ⟨0, 0, [], [], false⟩
  | attempt, r + 1 =>
    match env.scan attempt with
    | some qr_content =>
      if validate_xhs_url qr_content then
        if execute_adb_command (env.dispatch qr_content) then
          let _click := click_coordinate (env.tap 800 2210)
          ⟨0, 1, [qr_content], [(800, 2210)], true⟩
        else ⟨0, 1, [qr_content], [], false⟩
      else
        let rest := scanLoop env (attempt + 1) r
        ⟨0, rest.attempts + 1, rest.dispatched, rest.taps, rest.success⟩
    | none =>
      let rest := scanLoop env (attempt + 1) r
      ⟨0, rest.attempts + 1, rest.dispatched, rest.taps, rest.success⟩

/-- `QRScanner.run` (qr_scanner.py, lines 214-276): one connectivity check;
if it fails the run aborts with no attempts, otherwise the attempt loop
runs. -/
def runScan (env : ScanEnv) (max_attempts : Nat) : ScanTrace :=
  if check_adb_connection env then
    let t := scanLoop env 1 max_attempts
    ⟨1, t.attempts, t.dispatched, t.taps, t.success⟩
  else ⟨1, 0, [], [], false⟩

/-- Oracle environment for the `XhsUrlProcessor` batch flows: result of its
connectivity check, outcome of each dispatch (keyed by the dispatched URI)
and of each tap, and — interactive mode only — whether the operator presses
enter (continue) rather than `q` after the i-th item. -/
structure UrlEnv where
  checkOk : Bool
  dispatch : String → CmdOutcome
  tap : Nat → Nat → CmdOutcome
  contAfter : Nat → Bool

/-- Observable events of the batch flows. -/
inductive Ev where
  | processed : String → Ev
  | dispatched : String → Ev
  | tapped : Nat → Nat → Ev
  | slept : Ev
  | prompted : Ev
deriving DecidableEq

/-- Projection used to read the processed-line trace. -/
def evProcessedUrl : Ev → Option String
  | Ev.processed u => some u
  | _ => none

/-- Recognizer for inter-item sleeps. -/
def isSleptEv : Ev → Bool
  | Ev.slept => true
  | _ => false

/-- Every tap event uses coordinates `(x, y)`. -/
def tapFixed (x y : Nat) : Ev → Bool
  | Ev.tapped a b => a == x && b == y
  | _ => true

/-- `XhsUrlProcessor.process_single_url` (xhs404Url.py, lines 97-128):
strip, extract the id (failure returns `False` with nothing dispatched),
build the deep link, dispatch it; on clean dispatch tap `(865, 2690)` and
return `True` even if the tap failed; on failed dispatch return `False`. -/
def process_single_url (env : UrlEnv) (url : String) : Bool × List Ev :=
  match extract_id_from_url (pyStrip url) with
  | none => (false, [Ev.processed url])
  | some item_id =>
    let app_url := convert_to_app_url item_id
    if execute_adb_command (env.dispatch app_url) then
      let _click := click_coordinate (env.tap 865 2690)
      (true, [Ev.processed url, Ev.dispatched app_url, Ev.tapped 865 2690])
    else (false, [Ev.processed url, Ev.dispatched app_url])

/-- The `for i, url in enumerate(urls, 1)` loop of
`XhsUrlProcessor.process_urls_from_file` (xhs404Url.py, lines 288-297):
process each line once in order, count successes, `time.sleep(1)` after every
item except the last. -/
def fileLoop (env : UrlEnv) : List String → Nat × List Ev
  | [] => (0, [])
  | url :: rest =>
    let r := process_single_url env url
    let t := fileLoop env rest
    ((if r.1 then 1 else 0) + t.1,
     r.2 ++ (if rest.isEmpty then [] else [Ev.slept]) ++ t.2)

/-- `XhsUrlProcessor.process_urls_from_file` (xhs404Url.py, lines 268-299):
empty batch returns immediately; then the connectivity check gates the loop. -/
def process_urls_from_file (env : UrlEnv) (urls : List String) : Nat × List Ev :=
  if urls.isEmpty then (0, [])
  else if env.checkOk then fileLoop env urls
  else (0, [])

/-- The interactive loop of `XhsUrlProcessor.process_urls_from_input`
(xhs404Url.py, lines 249-265): process each line once in order; after every
item except the last, prompt the operator, who either continues or quits
(`q`), abandoning the remaining items; no inter-item sleep. -/
def interLoop (env : UrlEnv) : Nat → List String → Nat × List Ev
  | _, [] => (0, [])
  | i, url :: rest =>
    let r := process_single_url env url
    if rest.isEmpty then ((if r.1 then 1 else 0), r.2)
    else if env.contAfter i then
      let t := interLoop env (i + 1) rest
      ((if r.1 then 1 else 0) + t.1, r.2 ++ [Ev.prompted] ++ t.2)
    else ((if r.1 then 1 else 0), r.2 ++ [Ev.prompted])

/-- `XhsUrlProcessor.process_urls_from_input` (xhs404Url.py, lines 216-266):
the connectivity check runs first; an empty batch returns with nothing
processed; otherwise the interactive loop runs. -/
def process_urls_from_input (env : UrlEnv) (urls : List String) : Nat × List Ev :=
  if env.checkOk then
    (if urls.isEmpty then (0, []) else interLoop env 1 urls)
  else (0, [])

/-- A scan environment whose `adb devices` output lists no device lines. -/
def envC5w : ScanEnv :=
  { adbDevicesOk := true
    adbDevicesOut := ["List of devices attached"]
    scan := fun _ => some "xhsdiscover://item/abc?source=x"
    dispatch := fun _ => CmdOutcome.ok
    tap := fun _ _ => CmdOutcome.ok }

/-- Scan environment for the C6 witness: dispatch succeeds, every tap fails. -/
def envC6s : ScanEnv :=
  { adbDevicesOk := true
    adbDevicesOut := ["List of devices attached", "emulator-5554\tdevice"]
    scan := fun _ => some "xhsdiscover://item/abc?source=x"
    dispatch := fun _ => CmdOutcome.ok
    tap := fun _ _ => CmdOutcome.fail }

/-- URL environment for the C6 witness: dispatch succeeds, every tap fails. -/
def envC6u : UrlEnv :=
  { checkOk := true
    dispatch := fun _ => CmdOutcome.ok
    tap := fun _ _ => CmdOutcome.fail
    contAfter := fun _ => true }

/-- The recognized web URL used in the C2 counterexample. -/
def urlC2 : String := "https://www.xiaohongshu.com/explore/652b91f0000000001f03b570"

/-- Scan environment for the C2 counterexample: everything succeeds. -/
def envC2 : ScanEnv :=
  { adbDevicesOk := true
    adbDevicesOut := ["List of devices attached", "emulator-5554\tdevice"]
    scan := fun _ => some urlC2
    dispatch := fun _ => CmdOutcome.ok
    tap := fun _ _ => CmdOutcome.ok }

/-- Scan environment for the C2 witness: an unrecognized payload at attempt 1
followed by an app URI at attempt 2. -/
def envC2w : ScanEnv :=
  { adbDevicesOk := true
    adbDevicesOut := ["List of devices attached", "emulator-5554\tdevice"]
    scan := fun i => if i == 1 then some "hello" else some "xhsdiscover://item/a?source=x"
    dispatch := fun _ => CmdOutcome.ok
    tap := fun _ _ => CmdOutcome.ok }

/-- URL environment for the C8 witness: everything succeeds, operator always
continues. -/
def envC8w : UrlEnv :=
  { checkOk := true
    dispatch := fun _ => CmdOutcome.ok
    tap := fun _ _ => CmdOutcome.ok
    contAfter := fun _ => true }

/-- Batch for the C8 witness: one extractable link and one rejected line. -/
def urlsC8w : List String :=
  ["https://www.xiaohongshu.com/explore/652b91f0000000001f03b570", "nonsense"]

/-- URL environment for the C7 counterexample: the bridge executable is
missing at every dispatch (`FileNotFoundError`). -/
def envC7 : UrlEnv :=
  { checkOk := true
    dispatch := fun _ => CmdOutcome.notFound
    tap := fun _ _ => CmdOutcome.ok
    contAfter := fun _ => true }

/-- Batch for the C7 claim: two extractable links. -/
def urlsC7 : List String :=
  ["https://www.xiaohongshu.com/explore/652b91f0000000001f03b570",
   "https://www.xiaohongshu.com/explore/0123456789abcdef01234567"]

theorem aux_isPrefixOf_append (p r : List Char) : p.isPrefixOf (p ++ r) = true := by
  induction p with
  | nil => simp [List.isPrefixOf]
  | cons c cs ih => simp [List.isPrefixOf, List.cons_append, ih]

theorem aux_matchesAt_nil : matchesAt [] = false := by decide

theorem aux_search_none (l : List Char) :
    searchAux l = none ↔ ∀ n, matchesAt (l.drop n) = false := by
  induction l with
  | nil => simp [searchAux, aux_matchesAt_nil]
  | cons c cs ih =>
    cases h : matchesAt (c :: cs) with
    | true =>
      simp only [searchAux, h, if_true]
      constructor
      · intro hsome; exact absurd hsome (by simp)
      · intro hall
        have h0 := hall 0
        rw [List.drop_zero, h] at h0
        exact absurd h0 (by simp)
    | false =>
      simp only [searchAux, h, Bool.false_eq_true, if_false]
      rw [ih]
      constructor
      · intro hcs n
        cases n with
        | zero => rw [List.drop_zero]; exact h
        | succ k => exact hcs k
      · intro hall n
        exact hall (n + 1)

theorem aux_search_first (l : List Char) (m : Nat)
    (hb : ∀ n, n < m → matchesAt (l.drop n) = false)
    (hm : matchesAt (l.drop m) = true) :
    searchAux l = some (((l.drop m).drop 9).take 24) := by
  induction m generalizing l with
  | zero =>
    rw [List.drop_zero] at hm
    cases l with
    | nil => rw [aux_matchesAt_nil] at hm; exact absurd hm (by simp)
    | cons c cs =>
      rw [List.drop_zero]
      simp only [searchAux, hm, if_true]
  | succ k ih =>
    have h0 : matchesAt l = false := by
      have h1 := hb 0 (Nat.succ_pos k)
      rwa [List.drop_zero] at h1
    cases l with
    | nil => rw [List.drop_nil, aux_matchesAt_nil] at hm; exact absurd hm (by simp)
    | cons c cs =>
      simp only [searchAux, h0, Bool.false_eq_true, if_false]
      exact ih cs (fun n hn => hb (n + 1) (Nat.succ_lt_succ hn)) hm

/-- C1 (counterexample): the token following `/explore/` here is 25 lowercase
hex characters — not exactly 24 — yet the extractor does not report failure:
it silently truncates the candidate to its first 24 characters, because the
`re.search` pattern `/explore/([a-f0-9]{24})` is not anchored on the right. -/
theorem C1_counterexample :
    extract_id_from_url "https://www.xiaohongshu.com/explore/652b91f0000000001f03b570a"
      = some "652b91f0000000001f03b570" := by decide

/-- C1 (amended): extraction fails exactly when no occurrence of the literal
`/explore/` is immediately followed by 24 (or more) lowercase hex characters;
in particular it fails whenever `/explore/` is absent or only shorter hex runs
follow it.  When a longer hex run follows, however, the extractor returns its
first 24 characters rather than rejecting the malformed candidate
(`matchesAt` is the head-match predicate of the source regex). -/
theorem C1_amended (url : String) :
    extract_id_from_url url = none ↔ ∀ n, matchesAt (url.data.drop n) = false := by
  unfold extract_id_from_url
  rw [Option.map_eq_none']
  exact aux_search_none url.data

/-- C3: for every URL of the form `pre ++ "/explore/" ++ id ++ post` with
`id` exactly 24 lowercase hex characters and no earlier regex match inside
`pre`, the extractor returns exactly `id`, whatever trailing query
parameters (`post`) follow; in particular the spec's Example 1 extracts
`652b91f0000000001f03b570` and builds the deep link
`xhsdiscover://item/652b91f0000000001f03b570?source=pcweb_access_limit`. -/
theorem C3_extraction :
    (∀ (pre id post : List Char),
      id.length = 24 →
      id.all isHexLower = true →
      (∀ n, n < pre.length →
        matchesAt ((pre ++ (explorePat ++ (id ++ post))).drop n) = false) →
      extract_id_from_url (String.mk (pre ++ (explorePat ++ (id ++ post))))
        = some (String.mk id))
    ∧ extract_id_from_url
        "https://www.xiaohongshu.com/explore/652b91f0000000001f03b570?xsec_token=abc"
        = some "652b91f0000000001f03b570"
    ∧ convert_to_app_url "652b91f0000000001f03b570"
        = "xhsdiscover://item/652b91f0000000001f03b570?source=pcweb_access_limit" := by
  refine ⟨?_, by decide, rfl⟩
  intro pre id post hlen hhex hb
  have hdrop : (pre ++ (explorePat ++ (id ++ post))).drop pre.length
      = explorePat ++ (id ++ post) := List.drop_left pre (explorePat ++ (id ++ post))
  have hdrop9 : (explorePat ++ (id ++ post)).drop 9 = id ++ post := by
    have h9 : explorePat.length = 9 := rfl
    rw [← h9]
    exact List.drop_left explorePat (id ++ post)
  have htake : (id ++ post).take 24 = id := by
    rw [← hlen]
    exact List.take_left id post
  have hm : matchesAt ((pre ++ (explorePat ++ (id ++ post))).drop pre.length) = true := by
    rw [hdrop]
    unfold matchesAt
    rw [hdrop9, htake]
    simp [aux_isPrefixOf_append, hlen, hhex]
  have hs := aux_search_first (pre ++ (explorePat ++ (id ++ post))) pre.length hb hm
  rw [hdrop, hdrop9, htake] at hs
  show (searchAux (pre ++ (explorePat ++ (id ++ post)))).map String.mk
    = some (String.mk id)
  rw [hs]
  rfl

/-- C4: the deep-link builder is a deterministic pure function producing
exactly `xhsdiscover://item/<id>?source=pcweb_access_limit`; equal
identifiers give byte-identical URIs. -/
theorem C4_deeplink :
    (∀ item_id : String,
      convert_to_app_url item_id
        = "xhsdiscover://item/" ++ item_id ++ "?source=pcweb_access_limit")
    ∧ (∀ a b : String, a = b → convert_to_app_url a = convert_to_app_url b) := by
  exact ⟨fun _ => rfl, fun a b h => by rw [h]⟩

/-- C4 witness: the builder applied twice to the example identifier. -/
theorem C4_deeplink_witness :
    convert_to_app_url "652b91f0000000001f03b570"
      = convert_to_app_url "652b91f0000000001f03b570" :=
  C4_deeplink.2 "652b91f0000000001f03b570" "652b91f0000000001f03b570" rfl

/-- C3 witness: the general statement instantiated on the spec's Example 1. -/
theorem C3_extraction_witness :
    extract_id_from_url (String.mk ("https://www.xiaohongshu.com".data
        ++ (explorePat ++ ("652b91f0000000001f03b570".data ++ "?xsec_token=abc".data))))
      = some (String.mk "652b91f0000000001f03b570".data) :=
  C3_extraction.1 "https://www.xiaohongshu.com".data "652b91f0000000001f03b570".data
    "?xsec_token=abc".data (by decide) (by decide) (by decide)

theorem aux_scanLoop_attempts (env : ScanEnv) : ∀ (a r : Nat), (scanLoop env a r).attempts ≤ r := by
  intro a r
  induction r generalizing a with
  | zero => exact Nat.le_refl 0
  | succ k ih =>
    cases h : env.scan a with
    | none =>
      simp only [scanLoop, h]
      exact Nat.succ_le_succ (ih (a + 1))
    | some qr =>
      cases hv : validate_xhs_url qr with
      | false =>
        simp only [scanLoop, h, hv, Bool.false_eq_true, if_false]
        exact Nat.succ_le_succ (ih (a + 1))
      | true =>
        cases he : execute_adb_command (env.dispatch qr) with
        | true => simp only [scanLoop, h, hv, he, if_true]; exact Nat.succ_le_succ (Nat.zero_le k)
        | false =>
          simp only [scanLoop, h, hv, he, Bool.false_eq_true, if_false, if_true]
          exact Nat.succ_le_succ (Nat.zero_le k)

/-- C5: the scan-mode orchestrator checks connectivity exactly once per run,
performs at most `N` attempts, and if the connectivity check reports zero
connected devices the run ends immediately with zero attempts, nothing
dispatched, nothing tapped, and overall failure. -/
theorem C5_attempts (env : ScanEnv) (N : Nat) :
    (runScan env N).connChecks = 1
    ∧ (runScan env N).attempts ≤ N
    ∧ (connectedDevices env = [] →
        (runScan env N).attempts = 0 ∧ (runScan env N).dispatched = []
        ∧ (runScan env N).taps = [] ∧ (runScan env N).success = false) := by
  cases hc : check_adb_connection env with
  | true =>
    refine ⟨by simp [runScan, hc], ?_, ?_⟩
    · simpa [runScan, hc] using aux_scanLoop_attempts env 1 N
    · intro hdev
      exact absurd hc (by simp [check_adb_connection, hdev])
  | false =>
    exact ⟨by simp [runScan, hc], by simp [runScan, hc],
      fun _ => by simp [runScan, hc]⟩

/-- C5 witness: zero devices reported, the run performs zero attempts. -/
theorem C5_attempts_witness :
    (runScan envC5w 5).attempts = 0 ∧ (runScan envC5w 5).dispatched = []
    ∧ (runScan envC5w 5).taps = [] ∧ (runScan envC5w 5).success = false :=
  (C5_attempts envC5w 5).2.2 (by decide)

/-- C6: in both flows, a clean dispatch followed by a failed tap still yields
overall outcome success — the scan run returns `True`, and the per-item
result of the URL flow is `True`. -/
theorem C6_tap_failure :
    (∀ (env : ScanEnv) (a r : Nat) (qr : String),
      env.scan a = some qr →
      validate_xhs_url qr = true →
      env.dispatch qr = CmdOutcome.ok →
      env.tap 800 2210 ≠ CmdOutcome.ok →
      (scanLoop env a (r + 1)).success = true)
    ∧ (∀ (env : UrlEnv) (url item_id : String),
      extract_id_from_url (pyStrip url) = some item_id →
      env.dispatch (convert_to_app_url item_id) = CmdOutcome.ok →
      env.tap 865 2690 ≠ CmdOutcome.ok →
      (process_single_url env url).1 = true) := by
  constructor
  · intro env a r qr hscan hval hdisp _htap
    simp [scanLoop, hscan, hval, hdisp, execute_adb_command]
  · intro env url item_id hext hdisp _htap
    simp [process_single_url, hext, hdisp, execute_adb_command]

/-- C6 witness: concrete runs where the tap fails yet the outcome is success. -/
theorem C6_tap_failure_witness :
    (scanLoop envC6s 1 1).success = true
    ∧ (process_single_url envC6u
        "https://www.xiaohongshu.com/explore/652b91f0000000001f03b570").1 = true :=
  ⟨C6_tap_failure.1 envC6s 1 0 "xhsdiscover://item/abc?source=x" rfl (by decide) rfl (by decide),
   C6_tap_failure.2 envC6u "https://www.xiaohongshu.com/explore/652b91f0000000001f03b570"
     "652b91f0000000001f03b570" (by decide) rfl (by decide)⟩

/-- C2 (counterexample): the scanned payload is a recognized web URL (it
passes validation and is not of the app-URI scheme, and the extractor would
yield an id for it), yet the scan-mode orchestrator dispatches the raw
payload itself — not the built deep link: no extraction or link-building step
is ever performed in scan mode. -/
theorem C2_counterexample :
    validate_xhs_url urlC2 = true
    ∧ "xhsdiscover://".data.isPrefixOf (urlC2.data.map Char.toLower) = false
    ∧ extract_id_from_url urlC2 = some "652b91f0000000001f03b570"
    ∧ (runScan envC2 10).dispatched = [urlC2]
    ∧ urlC2 ≠ convert_to_app_url "652b91f0000000001f03b570" := by decide

/-- C2 (amended): in scan mode every dispatched payload is a raw scanned
payload that passed validation, dispatched unmodified whether it is an app
URI or a web URL (no extraction step exists); a payload failing validation is
a soft failure after which the loop proceeds to the next attempt. -/
theorem C2_amended :
    (∀ (env : ScanEnv) (a r : Nat),
      (scanLoop env a r).dispatched.all validate_xhs_url = true)
    ∧ (∀ (env : ScanEnv) (a r : Nat) (u : String),
      u ∈ (scanLoop env a r).dispatched → ∃ i, env.scan i = some u)
    ∧ (∀ (env : ScanEnv) (a r : Nat) (qr : String),
      env.scan a = some qr → validate_xhs_url qr = false →
      (scanLoop env a (r + 1)).attempts = (scanLoop env (a + 1) r).attempts + 1
      ∧ (scanLoop env a (r + 1)).success = (scanLoop env (a + 1) r).success
      ∧ (scanLoop env a (r + 1)).dispatched = (scanLoop env (a + 1) r).dispatched) := by
  refine ⟨?_, ?_, ?_⟩
  · intro env a r
    induction r generalizing a with
    | zero => rfl
    | succ k ih =>
      cases h : env.scan a with
      | none => simp only [scanLoop, h]; exact ih (a + 1)
      | some qr =>
        cases hv : validate_xhs_url qr with
        | false =>
          simp only [scanLoop, h, hv, Bool.false_eq_true, if_false]
          exact ih (a + 1)
        | true =>
          cases he : execute_adb_command (env.dispatch qr) with
          | true => simp [scanLoop, h, hv, he]
          | false => simp [scanLoop, h, hv, he]
  · intro env a r
    induction r generalizing a with
    | zero => intro u hu; exact absurd hu (by simp [scanLoop])
    | succ k ih =>
      intro u hu
      cases h : env.scan a with
      | none =>
        simp only [scanLoop, h] at hu
        exact ih (a + 1) u hu
      | some qr =>
        cases hv : validate_xhs_url qr with
        | false =>
          simp only [scanLoop, h, hv, Bool.false_eq_true, if_false] at hu
          exact ih (a + 1) u hu
        | true =>
          cases he : execute_adb_command (env.dispatch qr) with
          | true =>
            simp only [scanLoop, h, hv, he, if_true] at hu
            have : u = qr := by simpa using hu
            exact ⟨a, by rw [this]; exact h⟩
          | false =>
            simp only [scanLoop, h, hv, he, Bool.false_eq_true, if_false, if_true] at hu
            have : u = qr := by simpa using hu
            exact ⟨a, by rw [this]; exact h⟩
  · intro env a r qr hscan hval
    refine ⟨?_, ?_, ?_⟩ <;> simp [scanLoop, hscan, hval]

/-- C2 witness: the dispatched payload is a raw scanned payload, and an
unrecognized payload at attempt 1 consumed one attempt before the loop
continued. -/
theorem C2_amended_witness :
    (∃ i, envC2w.scan i = some "xhsdiscover://item/a?source=x")
    ∧ (scanLoop envC2w 1 2).attempts = (scanLoop envC2w 2 1).attempts + 1 :=
  ⟨C2_amended.2.1 envC2w 1 2 "xhsdiscover://item/a?source=x" (by decide),
   (C2_amended.2.2 envC2w 1 1 "hello" rfl (by decide)).1⟩

theorem aux_psu_processed (env : UrlEnv) (u : String) :
    (process_single_url env u).2.filterMap evProcessedUrl = [u] := by
  cases h : extract_id_from_url (pyStrip u) with
  | none => simp [process_single_url, h, evProcessedUrl]
  | some item_id =>
    cases he : execute_adb_command (env.dispatch (convert_to_app_url item_id)) with
    | true => simp [process_single_url, h, he, evProcessedUrl]
    | false => simp [process_single_url, h, he, evProcessedUrl]

theorem aux_psu_nosleep (env : UrlEnv) (u : String) :
    (process_single_url env u).2.countP isSleptEv = 0 := by
  cases h : extract_id_from_url (pyStrip u) with
  | none => simp [process_single_url, h, isSleptEv]
  | some item_id =>
    cases he : execute_adb_command (env.dispatch (convert_to_app_url item_id)) with
    | true => simp [process_single_url, h, he, isSleptEv]
    | false => simp [process_single_url, h, he, isSleptEv]

theorem aux_psu_tap (env : UrlEnv) (u : String) :
    (process_single_url env u).2.all (tapFixed 865 2690) = true := by
  cases h : extract_id_from_url (pyStrip u) with
  | none => simp [process_single_url, h, tapFixed]
  | some item_id =>
    cases he : execute_adb_command (env.dispatch (convert_to_app_url item_id)) with
    | true => simp [process_single_url, h, he, tapFixed]
    | false => simp [process_single_url, h, he, tapFixed]

theorem aux_fileLoop_cons (env : UrlEnv) (u : String) (rest : List String) :
    fileLoop env (u :: rest)
      = ((if (process_single_url env u).1 then 1 else 0) + (fileLoop env rest).1,
         (process_single_url env u).2
           ++ (if rest.isEmpty then [] else [Ev.slept]) ++ (fileLoop env rest).2) := rfl

theorem aux_interLoop_cons (env : UrlEnv) (i : Nat) (u : String) (rest : List String) :
    interLoop env i (u :: rest)
      = if rest.isEmpty then
          ((if (process_single_url env u).1 then 1 else 0), (process_single_url env u).2)
        else if env.contAfter i then
          ((if (process_single_url env u).1 then 1 else 0) + (interLoop env (i + 1) rest).1,
           (process_single_url env u).2 ++ [Ev.prompted] ++ (interLoop env (i + 1) rest).2)
        else
          ((if (process_single_url env u).1 then 1 else 0),
           (process_single_url env u).2 ++ [Ev.prompted]) := by
  cases rest with
  | nil => rfl
  | cons v vs => rfl

theorem aux_fileLoop_processed (env : UrlEnv) :
    ∀ l, (fileLoop env l).2.filterMap evProcessedUrl = l := by
  intro l
  induction l with
  | nil => rfl
  | cons u rest ih =>
    rw [aux_fileLoop_cons]
    simp only [List.filterMap_append, aux_psu_processed, ih]
    cases rest with
    | nil => rfl
    | cons v vs => simp [evProcessedUrl]

theorem aux_fileLoop_count (env : UrlEnv) :
    ∀ l, (fileLoop env l).1 = l.countP (fun u => (process_single_url env u).1) := by
  intro l
  induction l with
  | nil => rfl
  | cons u rest ih =>
    simp [fileLoop, List.countP_cons, ih]
    omega

theorem aux_fileLoop_sleeps (env : UrlEnv) :
    ∀ l, (fileLoop env l).2.countP isSleptEv = l.length - 1 := by
  intro l
  induction l with
  | nil => rfl
  | cons u rest ih =>
    cases rest with
    | nil => simpa [fileLoop] using aux_psu_nosleep env u
    | cons v vs =>
      simp [fileLoop, List.countP_append, aux_psu_nosleep, isSleptEv] at ih ⊢
      omega

theorem aux_interLoop_nosleep (env : UrlEnv) :
    ∀ l i, (interLoop env i l).2.countP isSleptEv = 0 := by
  intro l
  induction l with
  | nil => intro i; rfl
  | cons u rest ih =>
    intro i
    rw [aux_interLoop_cons]
    cases rest with
    | nil => simpa using aux_psu_nosleep env u
    | cons v vs =>
      cases hca : env.contAfter i with
      | true =>
        simp [List.countP_append, aux_psu_nosleep, isSleptEv, ih (i + 1)]
      | false => simp [List.countP_append, aux_psu_nosleep, isSleptEv]

theorem aux_interLoop_take (env : UrlEnv) :
    ∀ l i, l ≠ [] →
      ∃ k, 1 ≤ k ∧ k ≤ l.length
        ∧ (interLoop env i l).2.filterMap evProcessedUrl = l.take k := by
  intro l
  induction l with
  | nil => intro i h; exact absurd rfl h
  | cons u rest ih =>
    intro i _
    rw [aux_interLoop_cons]
    cases rest with
    | nil =>
      refine ⟨1, Nat.le_refl 1, by simp, ?_⟩
      simpa using aux_psu_processed env u
    | cons v vs =>
      cases hca : env.contAfter i with
      | false =>
        refine ⟨1, Nat.le_refl 1, by simp, ?_⟩
        simp [hca, List.filterMap_append, aux_psu_processed, evProcessedUrl]
      | true =>
        obtain ⟨k, hk1, hk2, hk3⟩ := ih (i + 1) (by simp)
        refine ⟨k + 1, Nat.le_add_left 1 k, by simpa using Nat.succ_le_succ hk2, ?_⟩
        simp [hca, List.filterMap_append, aux_psu_processed, evProcessedUrl, hk3]

theorem aux_interLoop_all (env : UrlEnv) (hall : ∀ i, env.contAfter i = true) :
    ∀ l i, (interLoop env i l).2.filterMap evProcessedUrl = l := by
  intro l
  induction l with
  | nil => intro i; rfl
  | cons u rest ih =>
    intro i
    rw [aux_interLoop_cons]
    cases rest with
    | nil => simpa using aux_psu_processed env u
    | cons v vs =>
      simp [hall i, List.filterMap_append, aux_psu_processed, evProcessedUrl, ih (i + 1)]

/-- C8: with connectivity confirmed and a non-empty batch, the file-sourced
batch processes each input line exactly once in order, its success count
equals the number of items whose per-item processing succeeded, and it sleeps
exactly once between consecutive items; the interactive batch never sleeps,
processes a non-empty prefix of the lines (each once, in order — the operator
may abort after any item), and processes all of them when the operator always
continues. -/
theorem C8_batch (env : UrlEnv) (urls : List String)
    (hchk : env.checkOk = true) (hne : urls ≠ []) :
    ((process_urls_from_file env urls).2.filterMap evProcessedUrl = urls
      ∧ (process_urls_from_file env urls).1
          = urls.countP (fun u => (process_single_url env u).1)
      ∧ (process_urls_from_file env urls).2.countP isSleptEv = urls.length - 1)
    ∧ ((process_urls_from_input env urls).2.countP isSleptEv = 0
      ∧ (∃ k, 1 ≤ k ∧ k ≤ urls.length
          ∧ (process_urls_from_input env urls).2.filterMap evProcessedUrl = urls.take k)
      ∧ ((∀ i, env.contAfter i = true) →
          (process_urls_from_input env urls).2.filterMap evProcessedUrl = urls)) := by
  have hie : urls.isEmpty = false := by
    cases urls with
    | nil => exact absurd rfl hne
    | cons a l => rfl
  constructor
  · rw [show process_urls_from_file env urls = fileLoop env urls by
      simp [process_urls_from_file, hie, hchk]]
    exact ⟨aux_fileLoop_processed env urls, aux_fileLoop_count env urls,
      aux_fileLoop_sleeps env urls⟩
  · rw [show process_urls_from_input env urls = interLoop env 1 urls by
      simp [process_urls_from_input, hie, hchk]]
    exact ⟨aux_interLoop_nosleep env urls 1, aux_interLoop_take env urls 1 hne,
      fun hall => aux_interLoop_all env hall urls 1⟩

/-- C8 witness: the concrete batch is processed once per line in order, and
interactive mode sleeps zero times. -/
theorem C8_batch_witness :
    (process_urls_from_file envC8w urlsC8w).2.filterMap evProcessedUrl = urlsC8w
    ∧ (process_urls_from_input envC8w urlsC8w).2.countP isSleptEv = 0 :=
  ⟨(C8_batch envC8w urlsC8w rfl (by decide)).1.1,
   (C8_batch envC8w urlsC8w rfl (by decide)).2.1⟩

theorem aux_scanLoop_tap (env : ScanEnv) :
    ∀ (a r : Nat), (scanLoop env a r).taps.all (fun t => t.1 == 800 && t.2 == 2210) = true := by
  intro a r
  induction r generalizing a with
  | zero => rfl
  | succ k ih =>
    cases h : env.scan a with
    | none => simp only [scanLoop, h]; exact ih (a + 1)
    | some qr =>
      cases hv : validate_xhs_url qr with
      | false =>
        simp only [scanLoop, h, hv, Bool.false_eq_true, if_false]
        exact ih (a + 1)
      | true =>
        cases he : execute_adb_command (env.dispatch qr) with
        | true => simp [scanLoop, h, hv, he]
        | false => simp [scanLoop, h, hv, he]

theorem aux_fileLoop_tap (env : UrlEnv) :
    ∀ l, (fileLoop env l).2.all (tapFixed 865 2690) = true := by
  intro l
  induction l with
  | nil => rfl
  | cons u rest ih =>
    rw [aux_fileLoop_cons]
    cases rest with
    | nil => simpa [show fileLoop env [] = (0, []) from rfl] using aux_psu_tap env u
    | cons v vs =>
      simp [List.all_append, aux_psu_tap, tapFixed, ih]

theorem aux_interLoop_tap (env : UrlEnv) :
    ∀ l i, (interLoop env i l).2.all (tapFixed 865 2690) = true := by
  intro l
  induction l with
  | nil => intro i; rfl
  | cons u rest ih =>
    intro i
    rw [aux_interLoop_cons]
    cases rest with
    | nil => simpa using aux_psu_tap env u
    | cons v vs =>
      cases hca : env.contAfter i with
      | true =>
        simp [hca, List.all_append, aux_psu_tap, tapFixed, ih (i + 1)]
      | false => simp [hca, List.all_append, aux_psu_tap, tapFixed]

/-- C9: tap coordinates are fixed constants of the invocation context: every
tap issued by the scan flow is at `(800, 2210)` and every tap issued by
either URL-batch flow is at `(865, 2690)`, for every environment and input. -/
theorem C9_tap_coords :
    (∀ (env : ScanEnv) (a r : Nat),
      (scanLoop env a r).taps.all (fun t => t.1 == 800 && t.2 == 2210) = true)
    ∧ (∀ (env : UrlEnv) (urls : List String),
      (process_urls_from_file env urls).2.all (tapFixed 865 2690) = true)
    ∧ (∀ (env : UrlEnv) (urls : List String),
      (process_urls_from_input env urls).2.all (tapFixed 865 2690) = true) := by
  refine ⟨aux_scanLoop_tap, ?_, ?_⟩
  · intro env urls
    cases hie : urls.isEmpty with
    | true => simp [process_urls_from_file, hie]
    | false =>
      cases hchk : env.checkOk with
      | true =>
        simpa [process_urls_from_file, hie, hchk] using aux_fileLoop_tap env urls
      | false => simp [process_urls_from_file, hie, hchk]
  · intro env urls
    cases hchk : env.checkOk with
    | false => simp [process_urls_from_input, hchk]
    | true =>
      cases hie : urls.isEmpty with
      | true => simp [process_urls_from_input, hchk, hie]
      | false =>
        simpa [process_urls_from_input, hchk, hie] using aux_interLoop_tap env urls 1

/-- C7 (counterexample): a missing bridge executable during dispatch
(`FileNotFoundError`, modelled `CmdOutcome.notFound`) is converted to an
ordinary per-item `False` by `execute_adb_command`, and the batch runner
continues: both inputs of the batch are still processed, the run is not
aborted. -/
theorem C7_counterexample :
    execute_adb_command CmdOutcome.notFound = false
    ∧ envC7.dispatch (convert_to_app_url "652b91f0000000001f03b570") = CmdOutcome.notFound
    ∧ (process_urls_from_file envC7 urlsC7).2.filterMap evProcessedUrl = urlsC7
    ∧ (process_urls_from_file envC7 urlsC7).1 = 0 := by decide

/-- C7 (amended): when the bridge executable is missing during dispatch, the
failure is classified as an ordinary per-item dispatch failure — the item's
result is `False`, the batch runner continues with the remaining inputs
(every line is still processed, in order) and the success count is zero; the
run is not aborted. -/
theorem C7_amended (env : UrlEnv) (urls : List String)
    (hchk : env.checkOk = true)
    (hnf : ∀ u, env.dispatch u = CmdOutcome.notFound) :
    (process_urls_from_file env urls).1 = 0
    ∧ (urls ≠ [] → (process_urls_from_file env urls).2.filterMap evProcessedUrl = urls) := by
  have hfalse : ∀ u, (process_single_url env u).1 = false := by
    intro u
    cases h : extract_id_from_url (pyStrip u) with
    | none => simp [process_single_url, h]
    | some item_id => simp [process_single_url, h, hnf, execute_adb_command]
  cases hie : urls.isEmpty with
  | true =>
    have : urls = [] := by
      cases urls with
      | nil => rfl
      | cons a l => exact absurd hie (by simp)
    exact ⟨by simp [process_urls_from_file, hie], fun hne => absurd this hne⟩
  | false =>
    rw [show process_urls_from_file env urls = fileLoop env urls by
      simp [process_urls_from_file, hie, hchk]]
    refine ⟨?_, fun _ => aux_fileLoop_processed env urls⟩
    rw [aux_fileLoop_count env urls]
    rw [List.countP_eq_zero]
    intro u _
    simp [hfalse u]

/-- C7 witness: the amended behaviour on the concrete missing-bridge batch. -/
theorem C7_amended_witness :
    (process_urls_from_file envC7 urlsC7).1 = 0
    ∧ (process_urls_from_file envC7 urlsC7).2.filterMap evProcessedUrl = urlsC7 :=
  ⟨(C7_amended envC7 urlsC7 rfl (fun _ => rfl)).1,
   (C7_amended envC7 urlsC7 rfl (fun _ => rfl)).2 (by decide)⟩

theorem aux_scanHost_found (host : List Char) (hne : host ≠ []) :
    ∀ (a b : List Char), (∀ c ∈ a, c ≠ '\n') →
      scanHost host (a ++ (host ++ b)) = true := by
  intro a
  induction a with
  | nil =>
    intro b _
    cases host with
    | nil => exact absurd rfl hne
    | cons h hs =>
      have hpre := aux_isPrefixOf_append (h :: hs) b
      rw [List.cons_append] at hpre
      simp [scanHost, List.nil_append, List.cons_append, hpre]
  | cons c a2 ih =>
    intro b hnl
    have hc : c ≠ '\n' := hnl c (List.mem_cons_self c a2)
    have ih2 := ih b (fun x hx => hnl x (List.mem_cons_of_mem c hx))
    simp [scanHost, List.cons_append, hc, ih2]

theorem aux_http_ne_https (r : List Char) :
    "http://".data.isPrefixOf ("https://".data ++ r) = false := rfl

/-- C10 (counterexample): the claim quantifies over every string starting
with `http(s)://` and containing a service domain anywhere later; this input
starts with `https://` and ends with the substring `xiaohongshu.com`, yet the
validator classifies it `Unrecognized`, because `.*` in Python's `re` does
not cross the newline between the scheme and the domain. -/
theorem C10_counterexample :
    validate_xhs_url ("https://" ++ "\n" ++ "xiaohongshu.com") = false := by decide

/-- C10 (amended): for every payload whose ASCII-lowercased text starts with
`http://` or `https://` and contains `xiaohongshu.com` or `xhslink.com`
after the scheme with no newline in between, the validator accepts it — the
domain is matched as a bare substring, not as the URL's host component, so
`https://evil.example/xiaohongshu.com` is classified as a valid link. -/
theorem C10_amended :
    (∀ (url : String) (scheme host a b : List Char),
      (scheme = "http://".data ∨ scheme = "https://".data) →
      (host = "xiaohongshu.com".data ∨ host = "xhslink.com".data) →
      url.data.map Char.toLower = scheme ++ (a ++ (host ++ b)) →
      (∀ c ∈ a, c ≠ '\n') →
      validate_xhs_url url = true)
    ∧ validate_xhs_url "https://evil.example/xiaohongshu.com" = true := by
  refine ⟨?_, by decide⟩
  intro url scheme host a b hscheme hhost heq hnl
  have hhostne : host ≠ [] := by
    cases hhost with
    | inl h => rw [h]; decide
    | inr h => rw [h]; decide
  have hscan : scanHost host (a ++ (host ++ b)) = true :=
    aux_scanHost_found host hhostne a b hnl
  have hmw : matchWebPattern (url.data.map Char.toLower) host = true := by
    rw [heq]
    cases hscheme with
    | inl h =>
      subst h
      unfold matchWebPattern
      rw [aux_isPrefixOf_append]
      rw [if_pos rfl]
      rw [List.drop_left' (by rfl : ("http://".data).length = 7)]
      exact hscan
    | inr h =>
      subst h
      unfold matchWebPattern
      rw [aux_http_ne_https]
      rw [aux_isPrefixOf_append]
      simp only [Bool.false_eq_true, if_false, if_pos rfl]
      rw [List.drop_left' (by rfl : ("https://".data).length = 8)]
      exact hscan
  unfold validate_xhs_url
  cases hhost with
  | inl h => subst h; simp [hmw]
  | inr h => subst h; simp [hmw]

/-- C10 witness: the amended acceptance rule instantiated on the claim's own
example `https://evil.example/xiaohongshu.com`. -/
theorem C10_amended_witness :
    validate_xhs_url "https://evil.example/xiaohongshu.com" = true :=
  C10_amended.1 "https://evil.example/xiaohongshu.com" "https://".data
    "xiaohongshu.com".data "evil.example/".data [] (Or.inr rfl) (Or.inl rfl)
    (by decide) (by decide)

